import Mathlib

/-!
Verification of the MAX31855 thermocouple driver
(`src/software/adafruit_max31855.py`).

The driver reads a fixed 4-byte frame over SPI, checks fault bits, splits
the frame into two big-endian signed 16-bit words, arithmetically shifts
them, scales them to Celsius, and optionally applies the NIST Type-K
inverse-polynomial correction.

Embedding notes:
* Python floats are modelled by `ℚ` (every constant in the source is a
  decimal literal, and the claims under study are about branch selection,
  algebraic structure and exact small-integer arithmetic, all of which the
  exact rationals reflect faithfully).
* `math.exp` is modelled by an abstract function parameter `exp : ℚ → ℚ`:
  the claims about the exponential correction term concern where it appears,
  not its numeric value.
* The SPI bus is modelled as a stream (list) of frames; one `readinto`
  consumes one frame.
* Python `raise RuntimeError` becomes `Except Err`; the distinct message
  strings become the constructors of `Fault` / `Err`.
* Python `>>` on a signed int is floor division by a power of two
  (arithmetic shift), modelled by `Int.fdiv`.
-/

namespace TempSense

/-- Sensor-fault kinds reported by the frame status bits
(the four distinct `RuntimeError` messages of `_read`). -/
inductive Fault where
  | openCircuit
  | shortToGround
  | shortToPower
  | faultyReading
deriving DecidableEq

/-- All errors the driver can raise: a device fault, or the NIST path's
total thermoelectric voltage falling outside every coefficient band
(carrying the offending `VTOTAL`). -/
inductive Err where
  | fault (k : Fault)
  | outOfRange (v : ℚ)
deriving DecidableEq

/-- One 4-byte frame as read from the device (`self.data`).
Bytes are naturals; a real `bytearray` byte is `< 256`. -/
structure Frame where
  b0 : Nat
  b1 : Nat
  b2 : Nat
  b3 : Nat
deriving DecidableEq

/-- Two's-complement interpretation of a 16-bit word,
as `struct.unpack('>h', …)` performs on two bytes. -/
def toSigned16 (w : Nat) : Int :=
  if w % 65536 < 32768 then (w % 65536 : Int) else (w % 65536 : Int) - 65536

/-- The first big-endian signed word of the frame (bytes 0 and 1):
the thermocouple word. -/
def thermocoupleWord (f : Frame) : Int :=
  toSigned16 (f.b0 * 256 + f.b1)

/-- The second big-endian signed word of the frame (bytes 2 and 3):
the internal/reference word. -/
def referenceWord (f : Frame) : Int :=
  toSigned16 (f.b2 * 256 + f.b3)

/-- Arithmetic right shift of a signed integer: Python's `>>` on `int`,
i.e. floor division by `2 ^ n`. -/
def ashr (x : Int) (n : Nat) : Int :=
  Int.fdiv x (2 ^ n)

/-- `MAX31855._read` after the bus transaction has filled `self.data` with
frame `f`: the fault checks in source order, then the unpack-and-shift.
Returns the shifted reference word when `internal` is true, else the
shifted thermocouple word. -/
def readRaw (internal : Bool) (f : Frame) : Except Err Int :=
  if f.b3 &&& 0x01 ≠ 0 then .error (.fault .openCircuit)
  else if f.b3 &&& 0x02 ≠ 0 then .error (.fault .shortToGround)
  else if f.b3 &&& 0x04 ≠ 0 then .error (.fault .shortToPower)
  else if f.b1 &&& 0x01 ≠ 0 then .error (.fault .faultyReading)
  else if internal then .ok (ashr (referenceWord f) 4)
  else .ok (ashr (thermocoupleWord f) 2)

/-- `MAX31855.temperature` on one frame: `self._read() / 4`. -/
def temperature (f : Frame) : Except Err ℚ :=
  (readRaw false f).map (fun t => (t : ℚ) / 4)

/-- `MAX31855.reference_temperature` on one frame:
`self._read(True) * 0.0625`. -/
def reference_temperature (f : Frame) : Except Err ℚ :=
  (readRaw true f).map (fun r => (r : ℚ) * 0.0625)

/-- The cold-junction equivalent thermocouple voltage `VREF` of
`temperature_NIST`, computed from `TAMB` with the two coefficient sets
selected by the sign test `TAMB >= 0`.  `exp` stands for `math.exp`. -/
def vref (exp : ℚ → ℚ) (TAMB : ℚ) : ℚ :=
  if TAMB ≥ 0 then
    -0.176004136860e-1 +
     0.389212049750e-1 * TAMB +
     0.185587700320e-4 * TAMB ^ 2 +
    -0.994575928740e-7 * TAMB ^ 3 +
     0.318409457190e-9 * TAMB ^ 4 +
    -0.560728448890e-12 * TAMB ^ 5 +
     0.560750590590e-15 * TAMB ^ 6 +
    -0.320207200030e-18 * TAMB ^ 7 +
     0.971511471520e-22 * TAMB ^ 8 +
    -0.121047212750e-25 * TAMB ^ 9 +
     0.1185976 * exp (-0.1183432e-3 * (TAMB - 0.1269686e3) ^ 2)
  else
     0.394501280250e-1 * TAMB +
     0.236223735980e-4 * TAMB ^ 2 +
    -0.328589067840e-6 * TAMB ^ 3 +
    -0.499048287770e-8 * TAMB ^ 4 +
    -0.675090591730e-10 * TAMB ^ 5 +
    -0.574103274280e-12 * TAMB ^ 6 +
    -0.310888728940e-14 * TAMB ^ 7 +
    -0.104516093650e-16 * TAMB ^ 8 +
    -0.198892668780e-19 * TAMB ^ 9 +
    -0.163226974860e-22 * TAMB ^ 10

/-- NIST inverse-coefficient table for the band `[-5.891, 0]` mV. -/
def DCOEF1 : List ℚ :=
  [0,
   2.5173462e1,
  -1.1662878,
  -1.0833638,
  -8.9773540e-1,
  -3.7342377e-1,
  -8.6632643e-2,
  -1.0450598e-2,
  -5.1920577e-4]

/-- NIST inverse-coefficient table for the band `(0, 20.644]` mV. -/
def DCOEF2 : List ℚ :=
  [0,
   2.508355e1,
   7.860106e-2,
  -2.503131e-1,
   8.315270e-2,
  -1.228034e-2,
   9.804036e-4,
  -4.413030e-5,
   1.057734e-6,
  -1.052755e-8]

/-- NIST inverse-coefficient table for the band `(20.644, 54.886]` mV. -/
def DCOEF3 : List ℚ :=
  [-1.318058e2,
    4.830222e1,
   -1.646031,
    5.464731e-2,
   -9.650715e-4,
    8.802193e-6,
   -3.110810e-8]

/-- The coefficient-table selection of `temperature_NIST`: the chained
comparisons on `VTOTAL` in source order, with the out-of-range error
carrying the computed voltage. -/
def selectDCOEF (v : ℚ) : Except Err (List ℚ) :=
  if -5.891 ≤ v ∧ v ≤ 0 then .ok DCOEF1
  else if 0 < v ∧ v ≤ 20.644 then .ok DCOEF2
  else if 20.644 < v ∧ v ≤ 54.886 then .ok DCOEF3
  else .error (.outOfRange v)

/-- The accumulation loop of `temperature_NIST`:
`TEMPERATURE = 0; for n, c in enumerate(DCOEF): TEMPERATURE += c * VTOTAL**n`. -/
def polySum (cs : List ℚ) (v : ℚ) : ℚ :=
  cs.enum.foldl (fun acc nc => acc + nc.2 * v ^ nc.1) 0

/-- The arithmetic of `temperature_NIST` once the two readings `TR` and
`TAMB` are in hand: `VOUT`, `VREF`, `VTOTAL`, table selection, and the
power-series evaluation. -/
def temperature_NIST_core (exp : ℚ → ℚ) (TR TAMB : ℚ) : Except Err ℚ :=
  let VOUT := 0.041276 * (TR - TAMB)
  let VREF := vref exp TAMB
  let VTOTAL := VOUT + VREF
  (selectDCOEF VTOTAL).map (fun DCOEF => polySum DCOEF VTOTAL)

/-- `MAX31855.temperature_NIST` given the two frames its two reads return:
`TR` from the first frame via `temperature`, `TAMB` from the second via
`reference_temperature`, then the core arithmetic. -/
def nistFromFrames (exp : ℚ → ℚ) (f1 f2 : Frame) : Except Err ℚ := do
  let TR ← temperature f1
  let TAMB ← reference_temperature f2
  temperature_NIST_core exp TR TAMB

/-- One scoped bus transaction (`with self.spi_device as spi:
spi.readinto(self.data)`): consumes exactly the head frame of the stream.
`none` models an exhausted stream. -/
def busRead (s : List Frame) : Option (Frame × List Frame) :=
  match s with
  | [] => none
  | f :: rest => some (f, rest)

/-- `MAX31855._read` against the bus stream: one transaction, then the
fault checks and shifts of `readRaw` on the frame obtained. -/
def readRawSt (internal : Bool) (s : List Frame) :
    Option (Except Err Int × List Frame) :=
  match busRead s with
  | none => none
  | some (f, rest) => some (readRaw internal f, rest)

/-- `MAX31855.temperature` against the bus stream. -/
def temperatureSt (s : List Frame) : Option (Except Err ℚ × List Frame) :=
  match readRawSt false s with
  | none => none
  | some (r, rest) => some (r.map (fun t => (t : ℚ) / 4), rest)

/-- `MAX31855.reference_temperature` against the bus stream. -/
def reference_temperatureSt (s : List Frame) :
    Option (Except Err ℚ × List Frame) :=
  match readRawSt true s with
  | none => none
  | some (r, rest) => some (r.map (fun x => (x : ℚ) * 0.0625), rest)

/-- `MAX31855.temperature_NIST` against the bus stream: first read for
`TR` (a raised fault stops the call there), second read for `TAMB`,
then the core arithmetic. -/
def temperature_NIST_St (exp : ℚ → ℚ) (s : List Frame) :
    Option (Except Err ℚ × List Frame) :=
  match temperatureSt s with
  | none => none
  | some (.error e, s1) => some (.error e, s1)
  | some (.ok TR, s1) =>
    match reference_temperatureSt s1 with
    | none => none
    | some (.error e, s2) => some (.error e, s2)
    | some (.ok TAMB, s2) => some (temperature_NIST_core exp TR TAMB, s2)

/-- Decidable equality on `Except`, so concrete driver results can be
checked by `decide`. -/
instance {ε α : Type _} [DecidableEq ε] [DecidableEq α] :
    DecidableEq (Except ε α) := fun a b =>
  match a, b with
  | .ok x, .ok y =>
    if h : x = y then .isTrue (by rw [h]) else .isFalse (by simp [h])
  | .error x, .error y =>
    if h : x = y then .isTrue (by rw [h]) else .isFalse (by simp [h])
  | .ok _, .error _ => .isFalse (by simp)
  | .error _, .ok _ => .isFalse (by simp)

/-! ## Claims -/

/-- C1: for every 4-byte frame with no fault bits set, `temperature`
returns exactly the big-endian signed 16-bit thermocouple word
arithmetically right-shifted by 2 and divided by 4, and
`reference_temperature` returns exactly the big-endian signed reference
word arithmetically right-shifted by 4 and multiplied by 0.0625. -/
theorem claim1_decode_and_scale (f : Frame)
    (h0 : f.b3 &&& 0x01 = 0) (h1 : f.b3 &&& 0x02 = 0)
    (h2 : f.b3 &&& 0x04 = 0) (h3 : f.b1 &&& 0x01 = 0) :
    temperature f = .ok ((ashr (thermocoupleWord f) 2 : ℚ) / 4) ∧
    reference_temperature f = .ok ((ashr (referenceWord f) 4 : ℚ) * 0.0625) := by
  simp [temperature, reference_temperature, readRaw, h0, h1, h2, h3,
    Except.map]

/-- Witness for C1 at the fault-free frame `0x01 0x02 0x03 0x00`. -/
theorem claim1_decode_and_scale_witness :
    temperature ⟨0x01, 0x02, 0x03, 0x00⟩ =
      .ok ((ashr (thermocoupleWord ⟨0x01, 0x02, 0x03, 0x00⟩) 2 : ℚ) / 4) ∧
    reference_temperature ⟨0x01, 0x02, 0x03, 0x00⟩ =
      .ok ((ashr (referenceWord ⟨0x01, 0x02, 0x03, 0x00⟩) 4 : ℚ) * 0.0625) :=
  claim1_decode_and_scale ⟨0x01, 0x02, 0x03, 0x00⟩
    (by decide) (by decide) (by decide) (by decide)

/-- C7: for the concrete frame `0x0C 0xD0 0x00 0x00`, the thermocouple
word is `0x0CD0`, its arithmetic shift by 2 is 820, `temperature` returns
exactly 205; the reference word is 0, its shift by 4 is 0, and
`reference_temperature` returns exactly 0.  For every frame whose
reference-word low byte is `0x01`, `reference_temperature` fails with the
open-circuit fault and performs no arithmetic. -/
theorem claim7_concrete_frame :
    thermocoupleWord ⟨0x0C, 0xD0, 0x00, 0x00⟩ = 0x0CD0 ∧
    ashr 0x0CD0 2 = 820 ∧
    temperature ⟨0x0C, 0xD0, 0x00, 0x00⟩ = .ok 205 ∧
    referenceWord ⟨0x0C, 0xD0, 0x00, 0x00⟩ = 0 ∧
    ashr 0 4 = 0 ∧
    reference_temperature ⟨0x0C, 0xD0, 0x00, 0x00⟩ = .ok 0 ∧
    ∀ b0 b1 b2 : Nat,
      reference_temperature ⟨b0, b1, b2, 0x01⟩ =
        .error (.fault .openCircuit) := by
  refine ⟨by decide, by decide, ?_, by decide, by decide, ?_, ?_⟩
  · have h : readRaw false ⟨0x0C, 0xD0, 0x00, 0x00⟩ = .ok 820 := by decide
    simp [temperature, h, Except.map]
    norm_num
  · have h : readRaw true ⟨0x0C, 0xD0, 0x00, 0x00⟩ = .ok 0 := by decide
    simp [reference_temperature, h, Except.map]
  · intro b0 b1 b2
    simp [reference_temperature, readRaw, Except.map]

/-- Low bit of a byte, set: restated through `% 2` (the form `simp`
normalizes `&&& 1` to). -/
lemma and_one_ne (n : Nat) (h : n &&& 0x01 ≠ 0) : n % 2 = 1 := by
  rw [Nat.and_one_is_mod] at h
  omega

/-- Low bit of a byte, clear: restated through `% 2`. -/
lemma and_one_eq (n : Nat) (h : n &&& 0x01 = 0) : n % 2 = 0 := by
  rw [Nat.and_one_is_mod] at h
  exact h

/-- Any set fault flag makes `_read` raise some device fault. -/
lemma readRaw_error_of_flag (internal : Bool) (f : Frame)
    (h : f.b3 &&& 0x01 ≠ 0 ∨ f.b3 &&& 0x02 ≠ 0 ∨ f.b3 &&& 0x04 ≠ 0 ∨
      f.b1 &&& 0x01 ≠ 0) :
    ∃ k, readRaw internal f = .error (.fault k) := by
  by_cases h1 : f.b3 &&& 0x01 = 0
  · by_cases h2 : f.b3 &&& 0x02 = 0
    · by_cases h3 : f.b3 &&& 0x04 = 0
      · have h4 : f.b1 &&& 0x01 ≠ 0 := by tauto
        exact ⟨.faultyReading,
          by simp [readRaw, and_one_eq _ h1, h2, h3, and_one_ne _ h4]⟩
      · exact ⟨.shortToPower, by simp [readRaw, and_one_eq _ h1, h2, h3]⟩
    · exact ⟨.shortToGround, by simp [readRaw, and_one_eq _ h1, h2]⟩
  · have h1' : f.b3 &&& 0x01 ≠ 0 := h1
    exact ⟨.openCircuit, by simp [readRaw, and_one_ne _ h1']⟩

/-- The raised fault does not depend on the `internal` flag. -/
lemma readRaw_error_internal (b b' : Bool) (f : Frame) (e : Err)
    (h : readRaw b f = .error e) : readRaw b' f = .error e := by
  unfold readRaw at h ⊢
  split_ifs at h ⊢ <;> simp_all

/-- C3: bit 0 of the reference word's low byte (byte 3) set alone gives the
open-circuit fault, bit 1 short-to-ground, bit 2 short-to-power, and bit 0
of the thermocouple word's low byte (byte 1) the generic faulty-reading
fault; any set flag makes the read fail with a device fault, returning no
data. -/
theorem claim3_fault_decoding (internal : Bool) (f : Frame) :
    (f.b3 &&& 0x01 ≠ 0 ∧ f.b3 &&& 0x02 = 0 ∧ f.b3 &&& 0x04 = 0 ∧
        f.b1 &&& 0x01 = 0 →
      readRaw internal f = .error (.fault .openCircuit)) ∧
    (f.b3 &&& 0x01 = 0 ∧ f.b3 &&& 0x02 ≠ 0 ∧ f.b3 &&& 0x04 = 0 ∧
        f.b1 &&& 0x01 = 0 →
      readRaw internal f = .error (.fault .shortToGround)) ∧
    (f.b3 &&& 0x01 = 0 ∧ f.b3 &&& 0x02 = 0 ∧ f.b3 &&& 0x04 ≠ 0 ∧
        f.b1 &&& 0x01 = 0 →
      readRaw internal f = .error (.fault .shortToPower)) ∧
    (f.b3 &&& 0x01 = 0 ∧ f.b3 &&& 0x02 = 0 ∧ f.b3 &&& 0x04 = 0 ∧
        f.b1 &&& 0x01 ≠ 0 →
      readRaw internal f = .error (.fault .faultyReading)) ∧
    (f.b3 &&& 0x01 ≠ 0 ∨ f.b3 &&& 0x02 ≠ 0 ∨ f.b3 &&& 0x04 ≠ 0 ∨
        f.b1 &&& 0x01 ≠ 0 →
      ∃ k, readRaw internal f = .error (.fault k)) := by
  refine ⟨?_, ?_, ?_, ?_, readRaw_error_of_flag internal f⟩
  · rintro ⟨h1, -, -, -⟩
    simp [readRaw, and_one_ne _ h1]
  · rintro ⟨h1, h2, -, -⟩
    simp [readRaw, and_one_eq _ h1, h2]
  · rintro ⟨h1, h2, h3, -⟩
    simp [readRaw, and_one_eq _ h1, h2, h3]
  · rintro ⟨h1, h2, h3, h4⟩
    simp [readRaw, and_one_eq _ h1, h2, h3, and_one_ne _ h4]

/-- Witness for C3: each fault bit set individually on a concrete frame. -/
theorem claim3_fault_decoding_witness :
    readRaw false ⟨0, 0, 0, 1⟩ = .error (.fault .openCircuit) ∧
    readRaw false ⟨0, 0, 0, 2⟩ = .error (.fault .shortToGround) ∧
    readRaw true ⟨0, 0, 0, 4⟩ = .error (.fault .shortToPower) ∧
    readRaw true ⟨0, 1, 0, 0⟩ = .error (.fault .faultyReading) :=
  ⟨(claim3_fault_decoding false ⟨0, 0, 0, 1⟩).1 (by decide),
   (claim3_fault_decoding false ⟨0, 0, 0, 2⟩).2.1 (by decide),
   (claim3_fault_decoding true ⟨0, 0, 0, 4⟩).2.2.1 (by decide),
   (claim3_fault_decoding true ⟨0, 1, 0, 0⟩).2.2.2.1 (by decide)⟩

/-- C10: when several fault bits are set, `_read` reports the single fault
of highest precedence: byte-3 bit 0 (open circuit) before byte-3 bit 1
(short to ground) before byte-3 bit 2 (short to power) before byte-1 bit 0
(generic faulty reading). -/
theorem claim10_fault_precedence (internal : Bool) (f : Frame) :
    (f.b3 &&& 0x01 ≠ 0 →
      readRaw internal f = .error (.fault .openCircuit)) ∧
    (f.b3 &&& 0x01 = 0 → f.b3 &&& 0x02 ≠ 0 →
      readRaw internal f = .error (.fault .shortToGround)) ∧
    (f.b3 &&& 0x01 = 0 → f.b3 &&& 0x02 = 0 → f.b3 &&& 0x04 ≠ 0 →
      readRaw internal f = .error (.fault .shortToPower)) ∧
    (f.b3 &&& 0x01 = 0 → f.b3 &&& 0x02 = 0 → f.b3 &&& 0x04 = 0 →
      f.b1 &&& 0x01 ≠ 0 →
      readRaw internal f = .error (.fault .faultyReading)) := by
  refine ⟨?_, ?_, ?_, ?_⟩
  · intro h1
    simp [readRaw, and_one_ne _ h1]
  · intro h1 h2
    simp [readRaw, and_one_eq _ h1, h2]
  · intro h1 h2 h3
    simp [readRaw, and_one_eq _ h1, h2, h3]
  · intro h1 h2 h3 h4
    simp [readRaw, and_one_eq _ h1, h2, h3, and_one_ne _ h4]

/-- Witness for C10: a frame with the short-to-ground, short-to-power and
generic-fault bits all set reports only short-to-ground. -/
theorem claim10_fault_precedence_witness :
    readRaw false ⟨0, 1, 0, 6⟩ = .error (.fault .shortToGround) :=
  (claim10_fault_precedence false ⟨0, 1, 0, 6⟩).2.1 (by decide) (by decide)

/-- C6: a faulting frame read makes all three entry points fail with that
fault; none of them returns a value in its place. -/
theorem claim6_fault_propagation (f : Frame) (e : Err)
    (h : readRaw false f = .error e) :
    temperature f = .error e ∧
    reference_temperature f = .error e ∧
    (∀ exp : ℚ → ℚ, ∀ f2 : Frame, nistFromFrames exp f f2 = .error e) ∧
    (∀ exp : ℚ → ℚ, ∀ f1 : Frame, ∀ TR : ℚ, temperature f1 = .ok TR →
      nistFromFrames exp f1 f = .error e) := by
  have h' : readRaw true f = .error e := readRaw_error_internal false true f e h
  refine ⟨by simp [temperature, h, Except.map],
          by simp [reference_temperature, h', Except.map], ?_, ?_⟩
  · intro exp f2
    simp [nistFromFrames, temperature, h, Except.map, Bind.bind, Except.bind]
  · intro exp f1 TR h1
    simp [nistFromFrames, reference_temperature, h1, h', Except.map,
      Bind.bind, Except.bind]

/-- Witness for C6 at a frame with the short-to-ground bit set. -/
theorem claim6_fault_propagation_witness :
    temperature ⟨0, 0, 0, 2⟩ = .error (.fault .shortToGround) ∧
    reference_temperature ⟨0, 0, 0, 2⟩ = .error (.fault .shortToGround) ∧
    nistFromFrames (fun _ => 0) ⟨0, 0, 0, 2⟩ ⟨0, 0, 0, 0⟩ =
      .error (.fault .shortToGround) ∧
    nistFromFrames (fun _ => 0) ⟨0, 0, 0, 0⟩ ⟨0, 0, 0, 2⟩ =
      .error (.fault .shortToGround) := by
  have h := claim6_fault_propagation ⟨0, 0, 0, 2⟩ (.fault .shortToGround)
    (by decide)
  have hr : readRaw false ⟨0, 0, 0, 0⟩ = .ok 0 := by decide
  have ht : temperature ⟨0, 0, 0, 0⟩ = .ok 0 := by
    simp [temperature, hr, Except.map]
  exact ⟨h.1, h.2.1, h.2.2.1 (fun _ => 0) ⟨0, 0, 0, 0⟩,
    h.2.2.2 (fun _ => 0) ⟨0, 0, 0, 0⟩ 0 ht⟩

/-- C2: the inverse-coefficient table is selected by which band contains
`VTOTAL`: `[-5.891, 0]` the 9-term band-1 table, `(0, 20.644]` the 10-term
band-2 table, `(20.644, 54.886]` the 7-term band-3 table; any `VTOTAL`
outside all three bands fails with the out-of-range error carrying the
computed `VTOTAL`; at the exact boundaries −5.891, 0, 20.644, 54.886 the
documented adjoining band is selected, and 54.887 and −5.892 fail; and
`temperature_NIST` applies this selection to its computed `VTOTAL`. -/
theorem claim2_band_selection (v : ℚ) :
    DCOEF1.length = 9 ∧ DCOEF2.length = 10 ∧ DCOEF3.length = 7 ∧
    (-5.891 ≤ v ∧ v ≤ 0 → selectDCOEF v = .ok DCOEF1) ∧
    (0 < v ∧ v ≤ 20.644 → selectDCOEF v = .ok DCOEF2) ∧
    (20.644 < v ∧ v ≤ 54.886 → selectDCOEF v = .ok DCOEF3) ∧
    (v < -5.891 ∨ 54.886 < v → selectDCOEF v = .error (.outOfRange v)) ∧
    selectDCOEF (-5.891) = .ok DCOEF1 ∧
    selectDCOEF 0 = .ok DCOEF1 ∧
    selectDCOEF 20.644 = .ok DCOEF2 ∧
    selectDCOEF 54.886 = .ok DCOEF3 ∧
    selectDCOEF 54.887 = .error (.outOfRange 54.887) ∧
    selectDCOEF (-5.892) = .error (.outOfRange (-5.892)) ∧
    (∀ exp : ℚ → ℚ, ∀ TR TAMB : ℚ,
      temperature_NIST_core exp TR TAMB =
        (selectDCOEF (0.041276 * (TR - TAMB) + vref exp TAMB)).map
          (fun DCOEF =>
            polySum DCOEF (0.041276 * (TR - TAMB) + vref exp TAMB))) := by
  refine ⟨by decide, by decide, by decide, ?_, ?_, ?_, ?_,
    by norm_num [selectDCOEF], by norm_num [selectDCOEF],
    by norm_num [selectDCOEF], by norm_num [selectDCOEF],
    by norm_num [selectDCOEF], by norm_num [selectDCOEF],
    fun exp TR TAMB => rfl⟩
  · rintro ⟨h1, h2⟩
    simp [selectDCOEF, h1, h2]
  · rintro ⟨h1, h2⟩
    have a1 : ¬ v ≤ (0 : ℚ) := by linarith
    simp [selectDCOEF, a1, h1, h2]
  · rintro ⟨h1, h2⟩
    have a1 : ¬ v ≤ (0 : ℚ) := by linarith
    have a2 : ¬ v ≤ (20.644 : ℚ) := by linarith
    simp [selectDCOEF, a1, a2, h1, h2]
  · rintro (h | h)
    · have a1 : ¬ (-5.891 : ℚ) ≤ v := by linarith
      have a2 : ¬ (0 : ℚ) < v := by linarith
      have a3 : ¬ (20.644 : ℚ) < v := by linarith
      simp [selectDCOEF, a1, a2, a3]
    · have a1 : ¬ v ≤ (0 : ℚ) := by linarith
      have a2 : ¬ v ≤ (20.644 : ℚ) := by linarith
      have a3 : ¬ v ≤ (54.886 : ℚ) := by linarith
      simp [selectDCOEF, a1, a2, a3]

/-- Witness for C2: 1 mV lies in band 2. -/
theorem claim2_band_selection_witness : selectDCOEF 1 = .ok DCOEF2 :=
  (claim2_band_selection 1).2.2.2.2.1 ⟨by norm_num, by norm_num⟩

/-- The accumulation loop equals the power series
`Σ c_n * v ^ n`, `n` running from `0` upward. -/
lemma foldl_enumFrom_eq_sum (v : ℚ) :
    ∀ (cs : List ℚ) (k : Nat) (acc : ℚ),
      (List.enumFrom k cs).foldl (fun acc nc => acc + nc.2 * v ^ nc.1) acc =
        acc + ∑ n in Finset.range cs.length, cs.getD n 0 * v ^ (n + k) := by
  intro cs
  induction cs with
  | nil =>
    intro k acc
    simp
  | cons c cs ih =>
    intro k acc
    simp only [List.enumFrom, List.foldl]
    rw [ih (k + 1)]
    simp only [List.length_cons]
    rw [Finset.sum_range_succ']
    simp only [List.getD_cons_succ, List.getD_cons_zero, zero_add]
    have hx : (∑ n in Finset.range cs.length, cs.getD n 0 * v ^ (n + 1 + k)) =
        ∑ n in Finset.range cs.length, cs.getD n 0 * v ^ (n + (k + 1)) :=
      Finset.sum_congr rfl fun n _ => by
        rw [show n + 1 + k = n + (k + 1) by omega]
    rw [hx]
    ring

/-- `polySum` as a `Finset.range` power series. -/
lemma polySum_eq_sum (cs : List ℚ) (v : ℚ) :
    polySum cs v = ∑ n in Finset.range cs.length, cs.getD n 0 * v ^ n := by
  have h := foldl_enumFrom_eq_sum v cs 0 0
  simpa [polySum, List.enum] using h

/-- C4: `temperature_NIST` computes `VOUT = 0.041276 * (TR - TAMB)`,
`VTOTAL = VOUT + VREF`, and returns `Σ c_n * VTOTAL ^ n` over the selected
coefficient table, `n` running from 0 upward. -/
theorem claim4_nist_formula (exp : ℚ → ℚ) (TR TAMB : ℚ) (cs : List ℚ)
    (h : selectDCOEF (0.041276 * (TR - TAMB) + vref exp TAMB) = .ok cs) :
    temperature_NIST_core exp TR TAMB =
      .ok (∑ n in Finset.range cs.length,
        cs.getD n 0 * (0.041276 * (TR - TAMB) + vref exp TAMB) ^ n) := by
  simp [temperature_NIST_core, h, Except.map, polySum_eq_sum]

/-- Witness for C4 at `TR = TAMB = 0` with the zero exponential. -/
theorem claim4_nist_formula_witness :
    temperature_NIST_core (fun _ => 0) 0 0 =
      .ok (∑ n in Finset.range DCOEF1.length,
        DCOEF1.getD n 0 *
          (0.041276 * ((0 : ℚ) - 0) + vref (fun _ => 0) 0) ^ n) :=
  claim4_nist_formula (fun _ => 0) 0 0 DCOEF1
    (by norm_num [selectDCOEF, vref])

/-- C5: `VREF` uses the `TAMB >= 0` coefficient set (degree-9 polynomial
plus the exponential correction term
`0.1185976 * exp (-0.1183432e-3 * (TAMB - 126.9686)^2)`) whenever
`0 ≤ TAMB`, including at `TAMB = 0`, and the degree-10 polynomial without
exponential term whenever `TAMB < 0`. -/
theorem claim5_vref_branches (exp : ℚ → ℚ) (TAMB : ℚ) :
    (0 ≤ TAMB → vref exp TAMB =
      -0.176004136860e-1 +
       0.389212049750e-1 * TAMB +
       0.185587700320e-4 * TAMB ^ 2 +
      -0.994575928740e-7 * TAMB ^ 3 +
       0.318409457190e-9 * TAMB ^ 4 +
      -0.560728448890e-12 * TAMB ^ 5 +
       0.560750590590e-15 * TAMB ^ 6 +
      -0.320207200030e-18 * TAMB ^ 7 +
       0.971511471520e-22 * TAMB ^ 8 +
      -0.121047212750e-25 * TAMB ^ 9 +
       0.1185976 * exp (-0.1183432e-3 * (TAMB - 126.9686) ^ 2)) ∧
    (TAMB < 0 → vref exp TAMB =
       0.394501280250e-1 * TAMB +
       0.236223735980e-4 * TAMB ^ 2 +
      -0.328589067840e-6 * TAMB ^ 3 +
      -0.499048287770e-8 * TAMB ^ 4 +
      -0.675090591730e-10 * TAMB ^ 5 +
      -0.574103274280e-12 * TAMB ^ 6 +
      -0.310888728940e-14 * TAMB ^ 7 +
      -0.104516093650e-16 * TAMB ^ 8 +
      -0.198892668780e-19 * TAMB ^ 9 +
      -0.163226974860e-22 * TAMB ^ 10) := by
  constructor
  · intro h
    unfold vref
    rw [if_pos (show TAMB ≥ 0 from h)]
  · intro h
    unfold vref
    rw [if_neg (not_le.mpr h)]

/-- Witness for C5 at the sign boundary: `TAMB = 0` takes the branch with
the exponential term, `TAMB = -0.0001` the branch without it. -/
theorem claim5_vref_branches_witness :
    vref (fun _ => 0) 0 = -0.176004136860e-1 ∧
    vref (fun _ => 0) (-0.0001) =
       0.394501280250e-1 * (-0.0001) +
       0.236223735980e-4 * (-0.0001) ^ 2 +
      -0.328589067840e-6 * (-0.0001) ^ 3 +
      -0.499048287770e-8 * (-0.0001) ^ 4 +
      -0.675090591730e-10 * (-0.0001) ^ 5 +
      -0.574103274280e-12 * (-0.0001) ^ 6 +
      -0.310888728940e-14 * (-0.0001) ^ 7 +
      -0.104516093650e-16 * (-0.0001) ^ 8 +
      -0.198892668780e-19 * (-0.0001) ^ 9 +
      -0.163226974860e-22 * (-0.0001) ^ 10 := by
  constructor
  · have h := (claim5_vref_branches (fun _ => 0) 0).1 le_rfl
    rw [h]
    norm_num
  · exact (claim5_vref_branches (fun _ => 0) (-0.0001)).2 (by norm_num)

/-- One frame on the stream feeds one `temperature` reading. -/
lemma temperatureSt_cons (f : Frame) (rest : List Frame) :
    temperatureSt (f :: rest) = some (temperature f, rest) := rfl

/-- One frame on the stream feeds one `reference_temperature` reading. -/
lemma reference_temperatureSt_cons (f : Frame) (rest : List Frame) :
    reference_temperatureSt (f :: rest) =
      some (reference_temperature f, rest) := rfl

/-- C8: `_read` performs exactly one bus transaction, consuming exactly the
head frame of the stream; one `temperature_NIST` invocation whose first
read succeeds performs exactly two, the first frame feeding `TR` and the
second, independently read, feeding `TAMB`. -/
theorem claim8_bus_transactions :
    (∀ (internal : Bool) (f : Frame) (rest : List Frame),
      readRawSt internal (f :: rest) = some (readRaw internal f, rest)) ∧
    (∀ (exp : ℚ → ℚ) (TR : ℚ) (f1 f2 : Frame) (rest : List Frame),
      temperature f1 = .ok TR →
      temperature_NIST_St exp (f1 :: f2 :: rest) =
        some (nistFromFrames exp f1 f2, rest)) := by
  constructor
  · intro internal f rest
    rfl
  · intro exp TR f1 f2 rest h
    rcases hr : reference_temperature f2 with e | TAMB <;>
      simp [temperature_NIST_St, temperatureSt_cons,
        reference_temperatureSt_cons, h, hr, nistFromFrames,
        Bind.bind, Except.bind]

/-- Witness for C8 on a three-frame stream: the NIST reading consumes the
first two frames and leaves the third. -/
theorem claim8_bus_transactions_witness :
    temperature_NIST_St (fun _ => 0)
        [⟨0, 0, 0, 0⟩, ⟨0, 0, 0, 0⟩, ⟨1, 1, 1, 1⟩] =
      some (nistFromFrames (fun _ => 0) ⟨0, 0, 0, 0⟩ ⟨0, 0, 0, 0⟩,
        [⟨1, 1, 1, 1⟩]) := by
  have hr : readRaw false ⟨0, 0, 0, 0⟩ = .ok 0 := by decide
  exact claim8_bus_transactions.2 (fun _ => 0) 0 ⟨0, 0, 0, 0⟩ ⟨0, 0, 0, 0⟩
    [⟨1, 1, 1, 1⟩] (by simp [temperature, hr, Except.map])

/-- C9: the NIST computation is a pure function of the two decoded
readings: invocations whose frame reads decode identically return
identical results. -/
theorem claim9_nist_deterministic (exp : ℚ → ℚ) (f1 f2 g1 g2 : Frame)
    (h1 : temperature f1 = temperature g1)
    (h2 : reference_temperature f2 = reference_temperature g2) :
    nistFromFrames exp f1 f2 = nistFromFrames exp g1 g2 := by
  simp only [nistFromFrames, h1, h2]

/-- Witness for C9: two different fault-free frame pairs that decode to the
same readings give the same NIST result. -/
theorem claim9_nist_deterministic_witness :
    nistFromFrames (fun _ => 0) ⟨0, 0, 0, 0⟩ ⟨0, 0, 0, 0⟩ =
      nistFromFrames (fun _ => 0) ⟨0, 2, 0, 0⟩ ⟨9, 2, 0, 0⟩ := by
  have a1 : readRaw false ⟨0, 0, 0, 0⟩ = .ok 0 := by decide
  have a2 : readRaw false ⟨0, 2, 0, 0⟩ = .ok 0 := by decide
  have b1 : readRaw true ⟨0, 0, 0, 0⟩ = .ok 0 := by decide
  have b2 : readRaw true ⟨9, 2, 0, 0⟩ = .ok 0 := by decide
  exact claim9_nist_deterministic (fun _ => 0) _ _ _ _
    (by simp [temperature, a1, a2])
    (by simp [reference_temperature, b1, b2])

end TempSense
